import Mathlib

/-!
Verification of the naga-based WGSL toolchain crate (packages/naga/src/lib.rs).

The crate's core is a reflection engine over validated naga IR modules, plus a
thin compile facade around the external naga parser/validator/backends.  We
embed the IR data model the code consumes, translate the reflection functions
(get_type_name, classify_binding, reflect_wgsl's collection loops) and the
facade functions (is_wgsl_valid, wgsl_to_spirv_bin, wgsl_to_msl,
spirv_bin_to_text) into Lean, treating the external naga primitives
(parse, validate, backend writers) as function parameters, and prove the
specified properties about them.
-/

namespace Metis

/- ## Decimal rendering of machine integers

Rust's `format!("{}", n)` on an unsigned integer prints its decimal digits,
most significant first, with "0" for zero.  We model it with a fuel-indexed
structural recursion so that concrete evaluation reduces in the kernel. -/

/-- Decimal digits of `n`, least significant first; `fuel` bounds recursion. -/
def decimalDigitsAux : Nat → Nat → List Nat
  | 0, _ => []
  | _ + 1, 0 => []
  | fuel + 1, n + 1 => ((n + 1) % 10) :: decimalDigitsAux fuel ((n + 1) / 10)

/-- Decimal digits of `n`, least significant first (`n` itself is enough fuel). -/
def decimalDigits (n : Nat) : List Nat := decimalDigitsAux n n

/-- Rust `Display` for an unsigned integer: decimal, most significant digit first. -/
def natDecimal (n : Nat) : String :=
  if n = 0 then "0" else String.mk (((decimalDigits n).map Nat.digitChar).reverse)

/-- Value of a least-significant-first decimal digit list. -/
def ofDec (L : List Nat) : Nat := L.foldr (fun d acc => d + 10 * acc) 0

/-- Read a decimal string (most significant first) back to its value. -/
def decodeDecimal (s : String) : Nat :=
  ofDec (s.data.reverse.map (fun c => c.toNat - 48))

/- ## The naga IR data model, as consumed by lib.rs

Handles into the type and global-variable arenas are modelled as `Nat`
indices into Lean lists; naga arena iteration yields (handle, item) pairs in
index order.  Machine integers (u32 handle indices, locations, groups,
bindings, byte offsets, workgroup sizes) are modelled as `Nat`: the code
never performs arithmetic on them, only formatting and equality. -/

/-- naga::ScalarKind. -/
inductive ScalarKind where
  | sint | uint | float | bool | abstractInt | abstractFloat
deriving DecidableEq, Repr

/-- naga::Scalar — a kind plus a byte width. -/
structure Scalar where
  kind : ScalarKind
  width : Nat
deriving DecidableEq, Repr

/-- naga::AddressSpace.  Storage carries access flags (a bitset, unused by
this crate beyond the `Storage { .. }` wildcard match). -/
inductive AddressSpace where
  | function
  | priv
  | workGroup
  | uniform
  | storage (access : Nat)
  | handle
  | pushConstant
deriving DecidableEq, Repr

/-- naga::VectorSize; `as u8` casts yield 2, 3, 4. -/
inductive VectorSize where
  | bi | tri | quad
deriving DecidableEq, Repr

/-- The `size as u8` cast used in vector/matrix name formatting. -/
def VectorSize.toNat : VectorSize → Nat
  | .bi => 2
  | .tri => 3
  | .quad => 4

/-- naga::ImageDimension. -/
inductive ImageDimension where
  | d1 | d2 | d3 | cube
deriving DecidableEq, Repr

/-- naga::ImageClass.  Only the distinctions the code matches on are kept
with payloads it inspects (`multi` for Sampled); the storage format/access
payloads are collapsed to an opaque tag. -/
inductive ImageClass where
  | sampled (kind : ScalarKind) (multi : Bool)
  | depth (multi : Bool)
  | storage (tag : Nat)
deriving DecidableEq, Repr

/-- naga::ArraySize: a fixed constant (NonZeroU32, its `.get()` value stored),
a pending override expression, or dynamic. -/
inductive ArraySize where
  | constant (n : Nat)
  | pending (h : Nat)
  | dynamic
deriving DecidableEq, Repr

/-- naga::Binding: a builtin, or a location with its slot number (the
interpolation/sampling/second-blend-source fields are never read by this
crate and are omitted). -/
inductive Binding where
  | builtIn (b : Nat)
  | location (location : Nat)
deriving DecidableEq, Repr

/-- naga::StructMember. -/
structure StructMember where
  name : Option String
  ty : Nat
  binding : Option Binding
  offset : Nat
deriving DecidableEq, Repr

/-- naga::TypeInner — the tagged union of type shapes. -/
inductive TypeInner where
  | scalar (s : Scalar)
  | vector (size : VectorSize) (scalar : Scalar)
  | matrix (columns : VectorSize) (rows : VectorSize) (scalar : Scalar)
  | atomic (s : Scalar)
  | pointer (base : Nat) (space : AddressSpace)
  | valuePointer (size : Option VectorSize) (scalar : Scalar) (space : AddressSpace)
  | array (base : Nat) (size : ArraySize) (stride : Nat)
  | struct (members : List StructMember) (span : Nat)
  | image (dim : ImageDimension) (arrayed : Bool) (cls : ImageClass)
  | sampler (comparison : Bool)
  | accelerationStructure (vertexReturn : Bool)
  | rayQuery (vertexReturn : Bool)
  | bindingArray (base : Nat) (size : ArraySize)
deriving DecidableEq, Repr

/-- naga::Type: an optional declared name plus the shape. -/
structure Ty where
  name : Option String
  inner : TypeInner
deriving DecidableEq, Repr

/-- naga::ResourceBinding — the @group/@binding pair. -/
structure ResourceBinding where
  group : Nat
  binding : Nat
deriving DecidableEq, Repr

/-- naga::GlobalVariable (the init expression is never read by this crate). -/
structure GlobalVariable where
  name : Option String
  space : AddressSpace
  binding : Option ResourceBinding
  ty : Nat
deriving DecidableEq, Repr

/-- naga::Expression.  The crate only ever matches `GlobalVariable(h)`;
every other expression variant is collapsed to an opaque tag. -/
inductive Expression where
  | globalVariable (h : Nat)
  | other (tag : Nat)
deriving DecidableEq, Repr

/-- naga::ShaderStage. -/
inductive ShaderStage where
  | vertex | fragment | compute | task | mesh
deriving DecidableEq, Repr

/-- naga::FunctionArgument. -/
structure FunctionArgument where
  name : Option String
  ty : Nat
  binding : Option Binding
deriving DecidableEq, Repr

/-- naga::FunctionResult. -/
structure FunctionResult where
  ty : Nat
  binding : Option Binding
deriving DecidableEq, Repr

/-- The slice of naga::Function the crate reads: arguments, result, and the
expression arena (in arena iteration order). -/
structure Function where
  arguments : List FunctionArgument
  result : Option FunctionResult
  expressions : List Expression
deriving DecidableEq, Repr

/-- naga::EntryPoint as read by the crate: name, stage, workgroup size
triple, and its function. -/
structure EntryPoint where
  name : String
  stage : ShaderStage
  workgroup_size : Nat × Nat × Nat
  function : Function
deriving DecidableEq, Repr

/-- naga::Module as read by the crate: the type arena, the global-variable
arena, and the entry points, each in iteration order. -/
structure Module where
  types : List Ty
  global_variables : List GlobalVariable
  entry_points : List EntryPoint
deriving DecidableEq, Repr

/-- Opaque stand-in for naga::valid::ModuleInfo (never inspected). -/
structure ModuleInfo where
  tag : Nat := 0
deriving DecidableEq, Repr

/- ## Type Namer: scalar_suffix, format_scalar, get_type_name -/

/-- `scalar_suffix` from lib.rs: the one-letter WGSL suffix per (kind, width). -/
def scalar_suffix (scalar : Scalar) : String :=
  match scalar.kind, scalar.width with
  | .float, 4 => "f"
  | .sint, 4 => "i"
  | .uint, 4 => "u"
  | .bool, _ => "b"
  | .float, 8 => "d"
  | _, _ => ""

/-- Debug rendering of a ScalarKind (Rust derive(Debug) variant names). -/
def scalarKindDebug : ScalarKind → String
  | .sint => "Sint"
  | .uint => "Uint"
  | .float => "Float"
  | .bool => "Bool"
  | .abstractInt => "AbstractInt"
  | .abstractFloat => "AbstractFloat"

/-- `format_scalar` from lib.rs: canonical WGSL scalar token per (kind, width);
the fallback is Rust's derive(Debug) rendering of the Scalar struct. -/
def format_scalar (scalar : Scalar) : String :=
  match scalar.kind, scalar.width with
  | .float, 4 => "f32"
  | .float, 8 => "f64"
  | .float, 2 => "f16"
  | .sint, 4 => "i32"
  | .uint, 4 => "u32"
  | .bool, _ => "bool"
  | .abstractInt, _ => "abstract_int"
  | .abstractFloat, _ => "abstract_float"
  | _, _ =>
    "Scalar \x7b kind: " ++ scalarKindDebug scalar.kind ++ ", width: "
      ++ natDecimal scalar.width ++ " \x7d"

/-- The address-space token match that appears in the Pointer and
ValuePointer arms of get_type_name. -/
def pointer_space_name : AddressSpace → String
  | .function => "function"
  | .priv => "private"
  | .workGroup => "workgroup"
  | .uniform => "uniform"
  | .storage _ => "storage"
  | .handle => "handle"
  | .pushConstant => "push_constant"

/-- The image-dimension token from the Image arm of get_type_name. -/
def imageDimName : ImageDimension → String
  | .d1 => "1d"
  | .d2 => "2d"
  | .d3 => "3d"
  | .cube => "cube"

/-- The image-class qualifier from the Image arm of get_type_name
(first match wins; plain single-sampled sampled images get no qualifier). -/
def imageClassQualifier : ImageClass → String
  | .sampled _ true => "_multisampled"
  | .depth _ => "_depth"
  | .storage _ => "_storage"
  | _ => ""

/-- `get_type_name` from lib.rs, with explicit recursion fuel.  A declared
name is returned verbatim; otherwise a structural name is synthesized,
recursing into base handles for pointers, arrays and binding arrays.
An unresolvable handle (Rust would panic indexing the arena) and fuel
exhaustion (the validated IR is a DAG, so with enough fuel this never
happens) both yield `none`. -/
def get_type_name_aux (m : Module) : Nat → Nat → Option String
  | 0, _ => none
  | fuel + 1, handle =>
    match m.types[handle]? with
    | none => none
    | some ty =>
      match ty.name with
      | some name => some name
      | none =>
        match ty.inner with
        | .scalar s => some (format_scalar s)
        | .vector size scalar =>
          some ("vec" ++ natDecimal size.toNat ++ scalar_suffix scalar)
        | .matrix columns rows scalar =>
          some ("mat" ++ natDecimal columns.toNat ++ "x" ++ natDecimal rows.toNat
            ++ scalar_suffix scalar)
        | .atomic s => some ("atomic<" ++ format_scalar s ++ ">")
        | .pointer base space => do
          let base_name ← get_type_name_aux m fuel base
          pure ("ptr<" ++ pointer_space_name space ++ ", " ++ base_name ++ ">")
        | .valuePointer size scalar space =>
          match size with
          | some vec_size =>
            some ("ptr<" ++ pointer_space_name space ++ ", vec"
              ++ natDecimal vec_size.toNat ++ scalar_suffix scalar ++ ">")
          | none =>
            some ("ptr<" ++ pointer_space_name space ++ ", "
              ++ format_scalar scalar ++ ">")
        | .array base size _ => do
          let base_name ← get_type_name_aux m fuel base
          match size with
          | .constant size_val =>
            pure ("array<" ++ base_name ++ ", " ++ natDecimal size_val ++ ">")
          | .pending _ => pure ("array<" ++ base_name ++ ">")
          | .dynamic => pure ("array<" ++ base_name ++ ">")
        | .struct _ _ => some "struct"
        | .image dim arrayed cls =>
          some ("texture_" ++ imageDimName dim
            ++ (if arrayed then "_array" else "") ++ imageClassQualifier cls)
        | .sampler comparison =>
          some (if comparison then "sampler_comparison" else "sampler")
        | .accelerationStructure _ => some "acceleration_structure"
        | .rayQuery _ => some "ray_query"
        | .bindingArray base size => do
          let base_name ← get_type_name_aux m fuel base
          match size with
          | .constant size_val =>
            pure ("binding_array<" ++ base_name ++ ", " ++ natDecimal size_val ++ ">")
          | .pending _ => pure ("binding_array<" ++ base_name ++ ">")
          | .dynamic => pure ("binding_array<" ++ base_name ++ ">")

/-- `get_type_name` with fuel sufficient for any DAG-shaped type table. -/
def get_type_name (m : Module) (handle : Nat) : Option String :=
  get_type_name_aux m (m.types.length + 1) handle

/- ## Binding Classifier: classify_binding -/

/-- The resource-category match from classify_binding, as a first-match
pattern chain over (type shape, address space) — the direct transcription of
the Rust match arms and their guards, in order. -/
def classify_category (inner : TypeInner) (space : AddressSpace) : String :=
  match inner, space with
  | .struct _ _, .uniform => "uniform"
  | .struct _ _, .storage _ => "storage"
  | .image _ _ _, _ => "texture"
  | .sampler _, _ => "sampler"
  | .atomic _, _ => "atomic"
  | .scalar _, .uniform => "uniform"
  | .scalar _, .storage _ => "storage"
  | .vector _ _, .uniform => "uniform"
  | .vector _ _, .storage _ => "storage"
  | .matrix _ _ _, .uniform => "uniform"
  | .matrix _ _ _, .storage _ => "storage"
  | .array _ _ _, .uniform => "uniform"
  | .array _ _ _, .storage _ => "storage"
  | .bindingArray _ _, _ => "binding_array"
  | .accelerationStructure _, _ => "acceleration_structure"
  | .rayQuery _, _ => "ray_query"
  | .pointer _ _, _ => "pointer"
  | _, _ => "unknown"

/-- `classify_binding` from lib.rs.  Rust indexes `module.types[var.ty]`,
panicking on an unresolvable handle; `none` models that panic. -/
def classify_binding (m : Module) (var : GlobalVariable) :
    Option (String × Option String) :=
  match m.types[var.ty]? with
  | none => none
  | some ty =>
    let type_name := get_type_name m var.ty
    some (classify_category ty.inner var.space, type_name)

/- ## Reflection output records -/

/-- BindingInfo record from lib.rs. -/
structure BindingInfo where
  name : String
  group : Nat
  binding : Nat
  resource_type : String
  type_name : Option String
deriving DecidableEq, Repr

/-- VertexInputInfo record from lib.rs. -/
structure VertexInputInfo where
  name : String
  location : Nat
  type_name : String
deriving DecidableEq, Repr

/-- FragmentOutputInfo record from lib.rs. -/
structure FragmentOutputInfo where
  name : String
  location : Nat
  type_name : String
deriving DecidableEq, Repr

/-- StructMemberInfo record from lib.rs. -/
structure StructMemberInfo where
  name : String
  type_name : String
  offset : Nat
deriving DecidableEq, Repr

/-- TypeInfo record from lib.rs. -/
structure TypeInfo where
  name : String
  kind : String
  members : Option (List StructMemberInfo)
deriving DecidableEq, Repr

/-- EntryPointInfo record from lib.rs. -/
structure EntryPointInfo where
  name : String
  stage : String
  workgroup_size : Option (List Nat)
  bindings : List BindingInfo
  vertex_inputs : List VertexInputInfo
  fragment_outputs : List FragmentOutputInfo
deriving DecidableEq, Repr

/-- ReflectionData record from lib.rs. -/
structure ReflectionData where
  entry_points : List EntryPointInfo
  types : List TypeInfo
deriving DecidableEq, Repr

/- ## Reflection Walker: reflect_wgsl's collection loops -/

/-- The stage-token match at the top of reflect_wgsl's entry-point loop. -/
def stage_name : ShaderStage → String
  | .vertex => "vertex"
  | .fragment => "fragment"
  | .compute => "compute"
  | .task => "task"
  | .mesh => "mesh"

/-- The workgroup-size extraction from reflect_wgsl: reported only for the
compute stage, verbatim as the declared triple. -/
def workgroupSizeOf (entry : EntryPoint) : Option (List Nat) :=
  if entry.stage = .compute then
    some [entry.workgroup_size.1, entry.workgroup_size.2.1, entry.workgroup_size.2.2]
  else none

/-- The usage test from reflect_wgsl: does the global's handle appear as a
direct GlobalVariable expression among the entry point's body expressions?
A flat membership scan over the expression arena, nothing more. -/
def usesGlobal (entry : EntryPoint) (handle : Nat) : Bool :=
  entry.function.expressions.any fun expr =>
    match expr with
    | .globalVariable h => h = handle
    | _ => false

/-- The BindingInfo construction from reflect_wgsl's binding loop:
declared name, or synthesized binding_<group>_<binding> when anonymous. -/
def mkBindingInfo (var : GlobalVariable) (b : ResourceBinding)
    (rc : String × Option String) : BindingInfo :=
  { name := var.name.getD ("binding_" ++ natDecimal b.group ++ "_" ++ natDecimal b.binding)
    group := b.group
    binding := b.binding
    resource_type := rc.1
    type_name := rc.2 }

/-- The binding-collection loop of reflect_wgsl, iterating the global
arena from a given handle index: annotated globals whose handle occurs in
the entry body are classified and pushed in arena order. -/
def collectBindingsFrom (m : Module) (entry : EntryPoint) :
    Nat → List GlobalVariable → Option (List BindingInfo)
  | _, [] => some []
  | handle, var :: rest =>
    match var.binding with
    | some b =>
      if usesGlobal entry handle then
        match classify_binding m var with
        | none => none
        | some rc => do
          let tail ← collectBindingsFrom m entry (handle + 1) rest
          pure (mkBindingInfo var b rc :: tail)
      else collectBindingsFrom m entry (handle + 1) rest
    | none => collectBindingsFrom m entry (handle + 1) rest

/-- The bindings list reflect_wgsl computes for one entry point. -/
def collectBindings (m : Module) (entry : EntryPoint) : Option (List BindingInfo) :=
  collectBindingsFrom m entry 0 m.global_variables

/-- The per-argument step of reflect_wgsl's vertex-input loop: a location-
bound argument yields one record (anonymous arguments get input_<location>);
any other argument yields nothing. -/
def vertexInputOf (m : Module) (arg : FunctionArgument) : Option VertexInputInfo :=
  match arg.binding with
  | some (.location location) =>
    let type_name := get_type_name m arg.ty
    some { name := arg.name.getD ("input_" ++ natDecimal location)
           location
           type_name := type_name.getD "unknown" }
  | _ => none

/-- The vertex-input collection of reflect_wgsl: vertex stage only, over
the arguments in declaration order. -/
def collectVertexInputs (m : Module) (entry : EntryPoint) : List VertexInputInfo :=
  if entry.stage = .vertex then
    entry.function.arguments.filterMap (vertexInputOf m)
  else []

/-- The per-member step of reflect_wgsl's struct-result fragment-output
loop: a location-bound member yields one record; others yield nothing. -/
def fragmentMemberOutput (m : Module) (mem : StructMember) : Option FragmentOutputInfo :=
  match mem.binding with
  | some (.location location) =>
    some { name := mem.name.getD ("output_" ++ natDecimal location)
           location
           type_name := (get_type_name m mem.ty).getD "unknown" }
  | _ => none

/-- The fragment-output collection of reflect_wgsl: fragment stage only.
A location-bound result yields the single record named "output"; otherwise
a struct result yields one record per location-bound member (Rust indexes
module.types[result.ty] there, so an unresolvable handle — a panic — is
modelled as none); anything else yields no outputs. -/
def collectFragmentOutputs (m : Module) (entry : EntryPoint) :
    Option (List FragmentOutputInfo) :=
  if entry.stage = .fragment then
    match entry.function.result with
    | some result =>
      match result.binding with
      | some (.location location) =>
        some [{ name := "output"
                location
                type_name := (get_type_name m result.ty).getD "unknown" }]
      | _ =>
        match m.types[result.ty]? with
        | none => none
        | some ty =>
          match ty.inner with
          | .struct members _ => some (members.filterMap (fragmentMemberOutput m))
          | _ => some []
    | none => some []
  else some []

/-- naga Handle's Debug impl renders the zero-based index as "[index]";
this is what reflect_wgsl's format of "type_" followed by the handle's
Debug form interpolates. -/
def handleDebug (h : Nat) : String := "[" ++ natDecimal h ++ "]"

/-- The member record built in reflect_wgsl's type-table walk. -/
def structMemberInfoOf (m : Module) (mem : StructMember) : StructMemberInfo :=
  { name := mem.name.getD "unnamed"
    type_name := (get_type_name m mem.ty).getD "unknown"
    offset := mem.offset }

/-- The TypeInfo built for one struct entry of the type table: declared
name, or synthesized type_<handle> when anonymous. -/
def typeInfoOf (m : Module) (handle : Nat) (ty : Ty)
    (members : List StructMember) : TypeInfo :=
  { name := ty.name.getD ("type_" ++ handleDebug handle)
    kind := "struct"
    members := some (members.map (structMemberInfoOf m)) }

/-- The type-table walk of reflect_wgsl from a given handle index: every
struct entry contributes one TypeInfo, in table iteration order. -/
def collectTypesFrom (m : Module) : Nat → List Ty → List TypeInfo
  | _, [] => []
  | handle, ty :: rest =>
    match ty.inner with
    | .struct members _ =>
      typeInfoOf m handle ty members :: collectTypesFrom m (handle + 1) rest
    | _ => collectTypesFrom m (handle + 1) rest

/-- The types list reflect_wgsl computes for the whole module. -/
def collectTypes (m : Module) : List TypeInfo := collectTypesFrom m 0 m.types

/-- One iteration of reflect_wgsl's entry-point loop. -/
def reflectEntryPoint (m : Module) (entry : EntryPoint) : Option EntryPointInfo := do
  let bindings ← collectBindings m entry
  let fragment_outputs ← collectFragmentOutputs m entry
  pure { name := entry.name
         stage := stage_name entry.stage
         workgroup_size := workgroupSizeOf entry
         bindings
         vertex_inputs := collectVertexInputs m entry
         fragment_outputs }

/-- The reflection core of reflect_wgsl, after parse+validate produced the
module: per-entry-point metadata plus the struct-type table. -/
def reflectModule (m : Module) : Option ReflectionData := do
  let entry_points ← m.entry_points.mapM (reflectEntryPoint m)
  pure { entry_points, types := collectTypes m }

/- ## Compile Facade

The external naga primitives — the WGSL parser, the validator, the SPIR-V
and MSL backend writers, and the SPIR-V front-end parser — are taken as
function parameters, each already producing the textual error message the
facade wraps. -/

/-- Stand-in for back::spv::Options (constructed with default, never read). -/
structure SpvOptions where
  tag : Nat := 0
deriving DecidableEq, Repr

/-- back::spv::PipelineOptions: the stage and name of the single entry
point to compile. -/
structure SpvPipelineOptions where
  shader_stage : ShaderStage
  entry_point : String
deriving DecidableEq, Repr

/-- Stand-in for back::msl::Options (constructed with default, never read). -/
structure MslOptions where
  tag : Nat := 0
deriving DecidableEq, Repr

/-- back::msl::PipelineOptions: an optional (stage, name) entry-point
restriction; the remaining fields are left at their defaults and never
read, so they are omitted. -/
structure MslPipelineOptions where
  entry_point : Option (ShaderStage × String) := none
deriving DecidableEq, Repr

/-- `parse_and_validate` from lib.rs: WGSL -> IR, then validation. -/
def parse_and_validate (parse : String → Except String Module)
    (validate : Module → Except String ModuleInfo) (wgsl : String) :
    Except String (Module × ModuleInfo) := do
  let module ← parse wgsl
  let info ← validate module
  pure (module, info)

/-- `is_wgsl_valid` from lib.rs: true iff parse_and_validate succeeds. -/
def is_wgsl_valid (parse : String → Except String Module)
    (validate : Module → Except String ModuleInfo) (wgsl : String) : Bool :=
  match parse_and_validate parse validate wgsl with
  | .ok _ => true
  | .error _ => false

/-- `validate_wgsl` from lib.rs: surface the parse/validate error, else nothing. -/
def validate_wgsl (parse : String → Except String Module)
    (validate : Module → Except String ModuleInfo) (wgsl : String) :
    Except String Unit := do
  let _ ← parse_and_validate parse validate wgsl
  pure ()

/-- The `to_le_bytes` serialization of one u32 word (value < 2^32). -/
def u32ToLeBytes (w : Nat) : List Nat :=
  [w % 256, w / 256 % 256, w / 65536 % 256, w / 16777216 % 256]

/-- The word-to-byte loop of wgsl_to_spirv_bin: little-endian packing. -/
def wordsToLeBytes (words : List Nat) : List Nat :=
  (words.map u32ToLeBytes).flatten

/-- `wgsl_to_spirv_bin` from lib.rs.  A supplied, non-empty entry-point
name is resolved (error if absent) and restricts codegen; an empty or
absent name compiles all entry points. -/
def wgsl_to_spirv_bin (parse : String → Except String Module)
    (validate : Module → Except String ModuleInfo)
    (write_vec : Module → ModuleInfo → SpvOptions → Option SpvPipelineOptions →
      Except String (List Nat))
    (wgsl : String) (entry_point : Option String) : Except String (List Nat) := do
  let (module, info) ← parse_and_validate parse validate wgsl
  let spv_opts : SpvOptions := {}
  let pipeline_opts ←
    (match entry_point with
    | some ep_name =>
      if ep_name.isEmpty then Except.ok none
      else
        match module.entry_points.find? (fun ep => ep.name = ep_name) with
        | none => Except.error ("Entry point \x27" ++ ep_name ++ "\x27 not found")
        | some entry =>
          Except.ok (some { shader_stage := entry.stage, entry_point := ep_name })
    | none => Except.ok none)
  match write_vec module info spv_opts pipeline_opts with
  | .error e => Except.error ("SPIR-V error: " ++ e)
  | .ok words => pure (wordsToLeBytes words)

/-- The shared compile-all tail of wgsl_to_msl (default pipeline options). -/
def mslCompileAll
    (write_string : Module → ModuleInfo → MslOptions → MslPipelineOptions →
      Except String (String × Nat))
    (module : Module) (info : ModuleInfo) (msl_opts : MslOptions) :
    Except String String :=
  match write_string module info msl_opts {} with
  | .error e => Except.error ("MSL error: " ++ e)
  | .ok (msl_source, _) => Except.ok msl_source

/-- `wgsl_to_msl` from lib.rs: same entry-point-selection policy as the
SPIR-V path, emitting MSL source text. -/
def wgsl_to_msl (parse : String → Except String Module)
    (validate : Module → Except String ModuleInfo)
    (write_string : Module → ModuleInfo → MslOptions → MslPipelineOptions →
      Except String (String × Nat))
    (wgsl : String) (entry_point : Option String) : Except String String := do
  let (module, info) ← parse_and_validate parse validate wgsl
  let msl_opts : MslOptions := {}
  match entry_point with
  | some ep_name =>
    if ¬ ep_name.isEmpty then
      match module.entry_points.find? (fun ep => ep.name = ep_name) with
      | none => Except.error ("Entry point \x27" ++ ep_name ++ "\x27 not found")
      | some entry =>
        let pipeline_opts : MslPipelineOptions :=
          { entry_point := some (entry.stage, ep_name) }
        match write_string module info msl_opts pipeline_opts with
        | .error e => Except.error ("MSL error: " ++ e)
        | .ok (msl_source, _) => Except.ok msl_source
    else
      mslCompileAll write_string module info msl_opts
  | none => mslCompileAll write_string module info msl_opts

/-- back::wgsl::WriterFlags::all(), modelled as an opaque flag word. -/
def writer_flags_all : Nat := 1

/-- The pipeline spirv_bin_to_text runs once the length check has passed:
SPIR-V parse, validate, render back to WGSL text. -/
def spirvAfterLengthCheck (parse_spv : List Nat → Except String Module)
    (validate : Module → Except String ModuleInfo)
    (write_wgsl : Module → ModuleInfo → Nat → Except String String)
    (spirv_bytes : List Nat) : Except String String := do
  let module ←
    (match parse_spv spirv_bytes with
    | .error e => Except.error ("SPIR-V parse error: " ++ e)
    | .ok module => Except.ok module)
  let info ←
    (match validate module with
    | .error e => Except.error ("SPIR-V validation error: " ++ e)
    | .ok info => Except.ok info)
  match write_wgsl module info writer_flags_all with
  | .error e => Except.error ("WGSL write error: " ++ e)
  | .ok wgsl_text => Except.ok wgsl_text

/-- `spirv_bin_to_text` from lib.rs: the length check precedes everything
else; only a byte count that is a multiple of 4 reaches the parser. -/
def spirv_bin_to_text (parse_spv : List Nat → Except String Module)
    (validate : Module → Except String ModuleInfo)
    (write_wgsl : Module → ModuleInfo → Nat → Except String String)
    (spirv_bytes : List Nat) : Except String String :=
  if spirv_bytes.length % 4 ≠ 0 then
    Except.error "SPIR-V binary length must be multiple of 4"
  else
    spirvAfterLengthCheck parse_spv validate write_wgsl spirv_bytes

/- ## Spec-side definitions

These are written from the specification's words, to be compared with the
source-derived definitions above. -/

/-- Shape test: struct. -/
def isStructShape : TypeInner → Bool
  | .struct _ _ => true
  | _ => false

/-- Shape test: image. -/
def isImageShape : TypeInner → Bool
  | .image _ _ _ => true
  | _ => false

/-- Shape test: sampler. -/
def isSamplerShape : TypeInner → Bool
  | .sampler _ => true
  | _ => false

/-- Shape test: atomic. -/
def isAtomicShape : TypeInner → Bool
  | .atomic _ => true
  | _ => false

/-- Shape test: scalar, vector, matrix or array (the buffer-shaped data
types of rules 6 and 7). -/
def isDataShape : TypeInner → Bool
  | .scalar _ => true
  | .vector _ _ => true
  | .matrix _ _ _ => true
  | .array _ _ _ => true
  | _ => false

/-- Shape test: binding array. -/
def isBindingArrayShape : TypeInner → Bool
  | .bindingArray _ _ => true
  | _ => false

/-- Shape test: acceleration structure. -/
def isAccelShape : TypeInner → Bool
  | .accelerationStructure _ => true
  | _ => false

/-- Shape test: ray query. -/
def isRayQueryShape : TypeInner → Bool
  | .rayQuery _ => true
  | _ => false

/-- Shape test: pointer. -/
def isPointerShape : TypeInner → Bool
  | .pointer _ _ => true
  | _ => false

/-- Space test: uniform. -/
def isUniformSpace : AddressSpace → Bool
  | .uniform => true
  | _ => false

/-- Space test: storage, either access mode. -/
def isStorageSpace : AddressSpace → Bool
  | .storage _ => true
  | _ => false

/-- The spec's decision table, rule by rule: does rule `i` match the
(type shape, address space) pair? -/
def specRuleMatches (inner : TypeInner) (space : AddressSpace) : Nat → Bool
  | 1 => isStructShape inner && isUniformSpace space
  | 2 => isStructShape inner && isStorageSpace space
  | 3 => isImageShape inner
  | 4 => isSamplerShape inner
  | 5 => isAtomicShape inner
  | 6 => isDataShape inner && isUniformSpace space
  | 7 => isDataShape inner && isStorageSpace space
  | 8 => isBindingArrayShape inner
  | 9 => isAccelShape inner
  | 10 => isRayQueryShape inner
  | 11 => isPointerShape inner
  | _ => false

/-- The category each rule of the spec's decision table emits. -/
def specRuleCategory : Nat → String
  | 1 => "uniform"
  | 2 => "storage"
  | 3 => "texture"
  | 4 => "sampler"
  | 5 => "atomic"
  | 6 => "uniform"
  | 7 => "storage"
  | 8 => "binding_array"
  | 9 => "acceleration_structure"
  | 10 => "ray_query"
  | 11 => "pointer"
  | _ => "unknown"

/-- The rule indices of the spec's decision table, in evaluation order. -/
def ruleIndices : List Nat := [1, 2, 3, 4, 5, 6, 7, 8, 9, 10, 11]

/-- The spec's classifier: evaluate the table in order, first match wins,
and fall back to unknown when no rule matched. -/
def specCategory (inner : TypeInner) (space : AddressSpace) : String :=
  match ruleIndices.find? (specRuleMatches inner space) with
  | some i => specRuleCategory i
  | none => "unknown"

/-- The used, binding-annotated globals of an entry point, enumerated in
global-variable declaration-table order starting at a given handle index. -/
def usedAnnotatedFrom (entry : EntryPoint) :
    Nat → List GlobalVariable → List (Nat × GlobalVariable × ResourceBinding)
  | _, [] => []
  | handle, var :: rest =>
    match var.binding with
    | some b =>
      if usesGlobal entry handle then
        (handle, var, b) :: usedAnnotatedFrom entry (handle + 1) rest
      else usedAnnotatedFrom entry (handle + 1) rest
    | none => usedAnnotatedFrom entry (handle + 1) rest

/-- The used, binding-annotated globals of an entry point, in
declaration-table order. -/
def usedAnnotated (m : Module) (entry : EntryPoint) :
    List (Nat × GlobalVariable × ResourceBinding) :=
  usedAnnotatedFrom entry 0 m.global_variables

/-- What it takes for `info` to be the report of global `handle`/`var` in an
entry point's bindings list: the variable is binding-annotated, its handle
occurs in the entry body, it classifies, and `info` is the record built. -/
def BindingWitness (m : Module) (entry : EntryPoint) (info : BindingInfo)
    (handle : Nat) (var : GlobalVariable) : Prop :=
  ∃ b rc, var.binding = some b ∧ usesGlobal entry handle = true ∧
    classify_binding m var = some rc ∧ info = mkBindingInfo var b rc

/- ## Concrete fixtures (for witness instantiations) -/

/-- An anonymous vec4<f32> type. -/
def vec4fTy : Ty := { name := none, inner := .vector .quad { kind := .float, width := 4 } }

/-- An anonymous empty struct type. -/
def anonEmptyStruct : Ty := { name := none, inner := .struct [] 16 }

/-- An anonymous struct with one location-bound member and one unbound member. -/
def anonOutStruct : Ty :=
  { name := none,
    inner := .struct [
      { name := none, ty := 1, binding := some (.location 0), offset := 0 },
      { name := some "fog", ty := 1, binding := none, offset := 16 } ] 32 }

/-- An anonymous storage-buffer global at group 0, binding 0, type handle 0. -/
def storageGlobal : GlobalVariable :=
  { name := none, space := .storage 3,
    binding := some { group := 0, binding := 0 }, ty := 0 }

/-- A named handle-space global at group 0, binding 1, type handle 1. -/
def texGlobal : GlobalVariable :=
  { name := some "tex", space := .handle,
    binding := some { group := 0, binding := 1 }, ty := 1 }

/-- A private global without a resource binding. -/
def plainGlobal : GlobalVariable :=
  { name := some "plain", space := .priv, binding := none, ty := 1 }

/-- A vertex entry point with one anonymous location-bound argument and one
unbound argument. -/
def vertexEntry : EntryPoint :=
  { name := "vmain", stage := .vertex, workgroup_size := (1, 1, 1),
    function :=
      { arguments := [
          { name := none, ty := 1, binding := some (.location 3) },
          { name := some "n", ty := 1, binding := none } ],
        result := some { ty := 1, binding := some (.builtIn 0) },
        expressions := [] } }

/-- A fragment entry point whose result is directly bound to location 0 and
whose body references global 0. -/
def fragmentEntry : EntryPoint :=
  { name := "fmain", stage := .fragment, workgroup_size := (1, 1, 1),
    function :=
      { arguments := [],
        result := some { ty := 1, binding := some (.location 0) },
        expressions := [.globalVariable 0] } }

/-- A fragment entry point returning the struct at type handle 2, with no
binding on the result itself. -/
def fragmentStructEntry : EntryPoint :=
  { name := "fsmain", stage := .fragment, workgroup_size := (1, 1, 1),
    function :=
      { arguments := [],
        result := some { ty := 2, binding := none },
        expressions := [] } }

/-- A compute entry point with workgroup size (8,8,1) whose body references
global 0 (and contains one unrelated expression). -/
def computeEntry : EntryPoint :=
  { name := "cmain", stage := .compute, workgroup_size := (8, 8, 1),
    function :=
      { arguments := [],
        result := none,
        expressions := [.globalVariable 0, .other 5] } }

/-- A small validated-shaped module exercising all the collectors. -/
def sampleModule : Module :=
  { types := [anonEmptyStruct, vec4fTy, anonOutStruct],
    global_variables := [storageGlobal, texGlobal, plainGlobal],
    entry_points := [vertexEntry, fragmentEntry, fragmentStructEntry, computeEntry] }

/- ## Lemmas: decimal rendering -/

theorem decimalDigitsAux_congr :
    ∀ fuel fuel' n, n ≤ fuel → n ≤ fuel' →
      decimalDigitsAux fuel n = decimalDigitsAux fuel' n := by
  intro fuel
  induction fuel with
  | zero =>
    intro fuel' n hn _
    interval_cases n
    cases fuel' <;> rfl
  | succ f ih =>
    intro fuel' n hn hn'
    cases fuel' with
    | zero =>
      interval_cases n
      rfl
    | succ f' =>
      cases n with
      | zero => rfl
      | succ m =>
        simp only [decimalDigitsAux]
        have hlt : (m + 1) / 10 < m + 1 := Nat.div_lt_self (Nat.succ_pos m) (by omega)
        have h1 : (m + 1) / 10 ≤ f := by omega
        have h2 : (m + 1) / 10 ≤ f' := by omega
        rw [ih f' ((m + 1) / 10) h1 h2]

theorem decimalDigits_succ (n : Nat) :
    decimalDigits (n + 1) = ((n + 1) % 10) :: decimalDigits ((n + 1) / 10) := by
  have hlt : (n + 1) / 10 < n + 1 := Nat.div_lt_self (Nat.succ_pos n) (by omega)
  simp only [decimalDigits, decimalDigitsAux]
  rw [decimalDigitsAux_congr n ((n + 1) / 10) ((n + 1) / 10) (by omega) (le_refl _)]

theorem ofDec_decimalDigits : ∀ n, ofDec (decimalDigits n) = n := by
  intro n
  induction n using Nat.strong_induction_on with
  | _ n ih =>
    cases n with
    | zero => rfl
    | succ m =>
      rw [decimalDigits_succ]
      have hlt : (m + 1) / 10 < m + 1 := Nat.div_lt_self (Nat.succ_pos m) (by omega)
      simp only [ofDec, List.foldr_cons]
      have := ih ((m + 1) / 10) hlt
      simp only [ofDec] at this
      rw [this, Nat.mod_add_div]

theorem decimalDigits_lt_ten :
    ∀ fuel n d, d ∈ decimalDigitsAux fuel n → d < 10 := by
  intro fuel
  induction fuel with
  | zero => intro n d h; simp [decimalDigitsAux] at h
  | succ f ih =>
    intro n d h
    cases n with
    | zero => simp [decimalDigitsAux] at h
    | succ m =>
      simp only [decimalDigitsAux, List.mem_cons] at h
      rcases h with h | h
      · subst h; exact Nat.mod_lt _ (by omega)
      · exact ih _ _ h

theorem digitChar_toNat : ∀ d < 10, (Nat.digitChar d).toNat = 48 + d := by decide

/-- Reading `natDecimal n` back yields `n`: decimal rendering is lossless. -/
theorem decodeDecimal_natDecimal (n : Nat) : decodeDecimal (natDecimal n) = n := by
  cases n with
  | zero => rfl
  | succ m =>
    have hne : m + 1 ≠ 0 := Nat.succ_ne_zero m
    simp only [natDecimal, if_neg hne, decodeDecimal]
    rw [List.reverse_reverse, List.map_map]
    have hmap : ((decimalDigits (m + 1)).map ((fun c => c.toNat - 48) ∘ Nat.digitChar))
        = decimalDigits (m + 1) := by
      have : ∀ d ∈ decimalDigits (m + 1),
          ((fun c => c.toNat - 48) ∘ Nat.digitChar) d = d := by
        intro d hd
        have hlt : d < 10 := decimalDigits_lt_ten _ _ _ hd
        simp [Function.comp, digitChar_toNat d hlt]
      calc (decimalDigits (m + 1)).map ((fun c => c.toNat - 48) ∘ Nat.digitChar)
          = (decimalDigits (m + 1)).map id := List.map_congr_left this
        _ = decimalDigits (m + 1) := List.map_id _
    rw [hmap, ofDec_decimalDigits]

theorem natDecimal_injective : Function.Injective natDecimal := by
  intro a b h
  have := decodeDecimal_natDecimal a
  rw [h, decodeDecimal_natDecimal] at this
  exact this.symm

/- ## Lemmas: Except bind reduction -/

theorem exceptBind_ok {ε α β} (a : α) (f : α → Except ε β) :
    (Except.ok a >>= f) = f a := rfl

theorem exceptBind_error {ε α β} (e : ε) (f : α → Except ε β) :
    ((Except.error e : Except ε α) >>= f) = Except.error e := rfl

/- ## Claim theorems -/

/-- C6: if a type carries an explicit declared name, the Type Namer
returns that name verbatim, for every type shape — the declared-name check
precedes all structural synthesis. -/
theorem get_type_name_declared (m : Module) (handle : Nat) (ty : Ty) (n : String)
    (hty : m.types[handle]? = some ty) (hname : ty.name = some n) :
    get_type_name m handle = some n := by
  simp [get_type_name, get_type_name_aux, hty, hname]

theorem get_type_name_declared_witness :
    get_type_name
      { types := [{ name := some "Alias", inner := .vector .quad ⟨.float, 4⟩ }]
        global_variables := []
        entry_points := [] } 0 = some "Alias" :=
  get_type_name_declared _ 0 _ "Alias" rfl rfl

/-- C9: the validity check is a total boolean: true exactly when parse and
validation both succeed, false exactly when parse or validation fails. -/
theorem is_wgsl_valid_bool_spec (parse : String → Except String Module)
    (validate : Module → Except String ModuleInfo) (wgsl : String) :
    (is_wgsl_valid parse validate wgsl = true ↔
      ∃ m info, parse wgsl = Except.ok m ∧ validate m = Except.ok info) ∧
    (is_wgsl_valid parse validate wgsl = false ↔
      ¬ ∃ m info, parse wgsl = Except.ok m ∧ validate m = Except.ok info) := by
  cases hp : parse wgsl with
  | error e =>
    simp [is_wgsl_valid, parse_and_validate, hp, exceptBind_error]
  | ok m =>
    cases hv : validate m with
    | error e =>
      simp [is_wgsl_valid, parse_and_validate, hp, hv, exceptBind_ok]
    | ok info =>
      simp [is_wgsl_valid, parse_and_validate, hp, hv, exceptBind_ok]

/-- C7: for both compile paths, an empty-string entry point behaves
identically to no entry point at all. -/
theorem empty_entry_point_eq_none (parse : String → Except String Module)
    (validate : Module → Except String ModuleInfo)
    (write_vec : Module → ModuleInfo → SpvOptions → Option SpvPipelineOptions →
      Except String (List Nat))
    (write_string : Module → ModuleInfo → MslOptions → MslPipelineOptions →
      Except String (String × Nat))
    (wgsl : String) :
    wgsl_to_spirv_bin parse validate write_vec wgsl (some "") =
      wgsl_to_spirv_bin parse validate write_vec wgsl none ∧
    wgsl_to_msl parse validate write_string wgsl (some "") =
      wgsl_to_msl parse validate write_string wgsl none := by
  constructor
  · unfold wgsl_to_spirv_bin
    cases parse_and_validate parse validate wgsl <;> rfl
  · unfold wgsl_to_msl
    cases parse_and_validate parse validate wgsl <;> rfl

/-- C8: the disassembler rejects a byte count that is not a multiple of 4
with the length error, regardless of what the parser would do; a byte
count that is a multiple of 4 passes the check and parsing proceeds. -/
theorem disassemble_length_gate (parse_spv : List Nat → Except String Module)
    (validate : Module → Except String ModuleInfo)
    (write_wgsl : Module → ModuleInfo → Nat → Except String String)
    (spirv_bytes : List Nat) :
    (spirv_bytes.length % 4 ≠ 0 →
      spirv_bin_to_text parse_spv validate write_wgsl spirv_bytes =
        Except.error "SPIR-V binary length must be multiple of 4") ∧
    (spirv_bytes.length % 4 = 0 →
      spirv_bin_to_text parse_spv validate write_wgsl spirv_bytes =
        spirvAfterLengthCheck parse_spv validate write_wgsl spirv_bytes) := by
  constructor <;> intro h <;> simp [spirv_bin_to_text, h]

theorem disassemble_length_gate_witness :
    ([0, 0, 0, 0, 0, 0] : List Nat).length % 4 ≠ 0 ∧
    spirv_bin_to_text (fun _ => Except.error "p") (fun _ => Except.error "v")
        (fun _ _ _ => Except.error "w") [0, 0, 0, 0, 0, 0] =
      Except.error "SPIR-V binary length must be multiple of 4" ∧
    ([0, 0, 0, 0] : List Nat).length % 4 = 0 ∧
    spirv_bin_to_text (fun _ => Except.error "p") (fun _ => Except.error "v")
        (fun _ _ _ => Except.error "w") [0, 0, 0, 0] =
      spirvAfterLengthCheck (fun _ => Except.error "p") (fun _ => Except.error "v")
        (fun _ _ _ => Except.error "w") [0, 0, 0, 0] :=
  ⟨by decide,
    (disassemble_length_gate _ _ _ _).1 (by decide),
    by decide,
    (disassemble_length_gate _ _ _ _).2 (by decide)⟩

/- ## Lemmas: the classifier against the spec decision table -/

theorem classify_category_eq_spec (inner : TypeInner) (space : AddressSpace) :
    classify_category inner space = specCategory inner space := by
  cases inner <;> cases space <;> rfl

theorem specCategory_unknown_iff (inner : TypeInner) (space : AddressSpace) :
    specCategory inner space = "unknown" ↔
      ∀ i ∈ ruleIndices, specRuleMatches inner space i = false := by
  unfold specCategory
  cases hf : ruleIndices.find? (specRuleMatches inner space) with
  | none =>
    rw [List.find?_eq_none] at hf
    simp only []
    constructor
    · intro _ i hi
      have := hf i hi
      simpa using this
    · intro _
      trivial
  | some i =>
    have hmem := List.mem_of_find?_eq_some hf
    have hp := List.find?_some hf
    simp only []
    constructor
    · intro hcat
      exfalso
      have hne : ∀ j ∈ ruleIndices, specRuleCategory j ≠ "unknown" := by decide
      exact hne i hmem hcat
    · intro hall
      exfalso
      have := hall i hmem
      rw [hp] at this
      cases this

/-- C2: the Binding Classifier realizes the twelve-rule decision table of
the spec, evaluated in order with first match winning: for a resolvable
type it returns exactly the category of the spec table, the category is
unknown iff no rule matched, and the type_name component is always the
output of the Type Namer. -/
theorem classify_binding_table (m : Module) (var : GlobalVariable) (ty : Ty)
    (hty : m.types[var.ty]? = some ty) :
    classify_binding m var =
      some (specCategory ty.inner var.space, get_type_name m var.ty) ∧
    (specCategory ty.inner var.space = "unknown" ↔
      ∀ i ∈ ruleIndices, specRuleMatches ty.inner var.space i = false) := by
  refine ⟨?_, specCategory_unknown_iff ty.inner var.space⟩
  simp [classify_binding, hty, classify_category_eq_spec]

theorem classify_binding_table_witness :
    classify_binding sampleModule storageGlobal =
      some (specCategory anonEmptyStruct.inner storageGlobal.space,
        get_type_name sampleModule storageGlobal.ty) ∧
    (specCategory anonEmptyStruct.inner storageGlobal.space = "unknown" ↔
      ∀ i ∈ ruleIndices,
        specRuleMatches anonEmptyStruct.inner storageGlobal.space i = false) :=
  classify_binding_table sampleModule storageGlobal anonEmptyStruct (by decide)


/- ## Lemmas: the binding-collection loop -/

theorem exists_cons_shift {α : Type} (x : α) (xs : List α)
    (W : Nat → α → Prop) (start : Nat) :
    (∃ j v, (x :: xs)[j]? = some v ∧ W (start + j) v) ↔
      (W start x ∨ ∃ j v, xs[j]? = some v ∧ W (start + 1 + j) v) := by
  constructor
  · rintro ⟨j, v, hj, hw⟩
    cases j with
    | zero =>
      simp only [List.getElem?_cons_zero, Option.some.injEq] at hj
      subst hj
      left
      simpa using hw
    | succ j =>
      right
      refine ⟨j, v, by simpa using hj, ?_⟩
      have harith : start + (j + 1) = start + 1 + j := by omega
      rwa [harith] at hw
  · rintro (hw | ⟨j, v, hj, hw⟩)
    · exact ⟨0, x, by simp, by simpa using hw⟩
    · refine ⟨j + 1, v, by simpa using hj, ?_⟩
      have harith : start + (j + 1) = start + 1 + j := by omega
      rwa [harith]

theorem collectBindingsFrom_mem (m : Module) (entry : EntryPoint) :
    ∀ (gvs : List GlobalVariable) (start : Nat) (infos : List BindingInfo),
      collectBindingsFrom m entry start gvs = some infos →
      ∀ info, (info ∈ infos ↔
        ∃ j var, gvs[j]? = some var ∧ BindingWitness m entry info (start + j) var) := by
  intro gvs
  induction gvs with
  | nil =>
    intro start infos h info
    simp only [collectBindingsFrom, Option.some.injEq] at h
    subst h
    simp
  | cons var rest ih =>
    intro start infos h info
    rw [exists_cons_shift]
    unfold collectBindingsFrom at h
    cases hb : var.binding with
    | none =>
      rw [hb] at h
      have hW : ¬ BindingWitness m entry info start var := by
        rintro ⟨b, rc, hbb, _⟩
        rw [hb] at hbb
        cases hbb
      rw [ih (start + 1) infos h info]
      tauto
    | some b =>
      rw [hb] at h
      dsimp only [] at h
      by_cases hu : usesGlobal entry start = true
      · rw [if_pos hu] at h
        cases hc : classify_binding m var with
        | none =>
          rw [hc] at h
          cases h
        | some rc =>
          rw [hc] at h
          cases htail : collectBindingsFrom m entry (start + 1) rest with
          | none =>
            rw [htail] at h
            cases h
          | some tail =>
            rw [htail] at h
            have h2 : some (mkBindingInfo var b rc :: tail) = some infos := h
            injection h2 with h3
            subst h3
            rw [List.mem_cons]
            rw [ih (start + 1) tail htail info]
            constructor
            · rintro (rfl | hmem)
              · exact Or.inl ⟨b, rc, hb, hu, hc, rfl⟩
              · exact Or.inr hmem
            · rintro (⟨b2, rc2, hb2, hu2, hc2, heq⟩ | hmem)
              · left
                rw [hb] at hb2
                injection hb2 with hb3
                subst hb3
                rw [hc] at hc2
                injection hc2 with hc3
                subst hc3
                exact heq
              · exact Or.inr hmem
      · rw [if_neg hu] at h
        have hW : ¬ BindingWitness m entry info start var := by
          rintro ⟨b2, rc2, _, hu2, _, _⟩
          exact hu hu2
        rw [ih (start + 1) infos h info]
        tauto

/-- C1: an entry point reports a BindingInfo for a global variable iff the
variable carries a resource binding annotation and its handle occurs as a
direct global-variable reference expression among the entry point body
expressions (usesGlobal is exactly that flat membership scan), and each
reported record bears the declared name or the synthesized
binding_<group>_<binding> name when the variable is anonymous. -/
theorem reflect_binding_iff (m : Module) (entry : EntryPoint)
    (infos : List BindingInfo) (h : collectBindings m entry = some infos)
    (info : BindingInfo) :
    info ∈ infos ↔
      ∃ handle var b rc,
        m.global_variables[handle]? = some var ∧
        var.binding = some b ∧
        usesGlobal entry handle = true ∧
        classify_binding m var = some rc ∧
        info = mkBindingInfo var b rc ∧
        info.name = var.name.getD
          ("binding_" ++ natDecimal b.group ++ "_" ++ natDecimal b.binding) := by
  rw [collectBindingsFrom_mem m entry m.global_variables 0 infos h info]
  constructor
  · rintro ⟨j, var, hj, b, rc, hb, hu, hc, heq⟩
    refine ⟨j, var, b, rc, hj, hb, by simpa using hu, hc, heq, ?_⟩
    rw [heq]
    rfl
  · rintro ⟨handle, var, b, rc, hj, hb, hu, hc, heq, _⟩
    exact ⟨handle, var, hj, b, rc, hb, by simpa using hu, hc, heq⟩

theorem reflect_binding_iff_witness :
    (mkBindingInfo storageGlobal { group := 0, binding := 0 }
        ("storage", some "struct")
      ∈ [mkBindingInfo storageGlobal { group := 0, binding := 0 }
        ("storage", some "struct")]) ↔
      ∃ handle var b rc,
        sampleModule.global_variables[handle]? = some var ∧
        var.binding = some b ∧
        usesGlobal computeEntry handle = true ∧
        classify_binding sampleModule var = some rc ∧
        mkBindingInfo storageGlobal { group := 0, binding := 0 }
          ("storage", some "struct") = mkBindingInfo var b rc ∧
        (mkBindingInfo storageGlobal { group := 0, binding := 0 }
          ("storage", some "struct")).name = var.name.getD
          ("binding_" ++ natDecimal b.group ++ "_" ++ natDecimal b.binding) :=
  reflect_binding_iff sampleModule computeEntry _ (by decide) _


/- ## Lemmas: binding order -/

theorem collectBindingsFrom_order (m : Module) (entry : EntryPoint) :
    ∀ (gvs : List GlobalVariable) (start : Nat) (infos : List BindingInfo),
      collectBindingsFrom m entry start gvs = some infos →
      infos = (usedAnnotatedFrom entry start gvs).filterMap
          (fun t => (classify_binding m t.2.1).map (mkBindingInfo t.2.1 t.2.2)) ∧
      infos.length = (usedAnnotatedFrom entry start gvs).length := by
  intro gvs
  induction gvs with
  | nil =>
    intro start infos h
    simp only [collectBindingsFrom, Option.some.injEq] at h
    subst h
    simp [usedAnnotatedFrom]
  | cons var rest ih =>
    intro start infos h
    unfold collectBindingsFrom at h
    unfold usedAnnotatedFrom
    cases hb : var.binding with
    | none =>
      rw [hb] at h
      exact ih (start + 1) infos h
    | some b =>
      rw [hb] at h
      dsimp only [] at h
      dsimp only []
      by_cases hu : usesGlobal entry start = true
      · rw [if_pos hu] at h
        rw [if_pos hu]
        cases hc : classify_binding m var with
        | none =>
          rw [hc] at h
          cases h
        | some rc =>
          rw [hc] at h
          cases htail : collectBindingsFrom m entry (start + 1) rest with
          | none =>
            rw [htail] at h
            cases h
          | some tail =>
            rw [htail] at h
            have h2 : some (mkBindingInfo var b rc :: tail) = some infos := h
            injection h2 with h3
            subst h3
            have ihr := ih (start + 1) tail htail
            constructor
            · rw [ihr.1, List.filterMap_cons]
              dsimp only []
              rw [hc]
              rfl
            · dsimp only [List.length_cons]
              rw [ihr.2]
      · rw [if_neg hu] at h
        rw [if_neg hu]
        exact ih (start + 1) infos h

/-- C10: the bindings list an entry point reports is ordered by the
global-variable declaration-table iteration order (usedAnnotated enumerates
the table in that order), and each used, binding-annotated global
contributes exactly one BindingInfo (the lengths agree). -/
theorem bindings_follow_declaration_order (m : Module) (entry : EntryPoint)
    (infos : List BindingInfo) (h : collectBindings m entry = some infos) :
    infos = (usedAnnotated m entry).filterMap
        (fun t => (classify_binding m t.2.1).map (mkBindingInfo t.2.1 t.2.2)) ∧
    infos.length = (usedAnnotated m entry).length :=
  collectBindingsFrom_order m entry m.global_variables 0 infos h

theorem bindings_follow_declaration_order_witness :
    [mkBindingInfo storageGlobal { group := 0, binding := 0 }
        ("storage", some "struct")] =
      (usedAnnotated sampleModule computeEntry).filterMap
        (fun t => (classify_binding sampleModule t.2.1).map
          (mkBindingInfo t.2.1 t.2.2)) ∧
    [mkBindingInfo storageGlobal { group := 0, binding := 0 }
        ("storage", some "struct")].length =
      (usedAnnotated sampleModule computeEntry).length :=
  bindings_follow_declaration_order sampleModule computeEntry _ (by decide)


/- ## Claim theorems: vertex inputs and fragment outputs -/

/-- C4: vertex-stage entry points report one VertexInputInfo per
location-bound argument, in declaration order (a filterMap over the
argument list), nothing for unbound arguments, with the synthesized
input_<location> name for anonymous arguments; non-vertex entry points
report the empty list. -/
theorem vertex_inputs_spec (m : Module) (entry : EntryPoint) :
    (entry.stage ≠ .vertex → collectVertexInputs m entry = []) ∧
    (entry.stage = .vertex →
      collectVertexInputs m entry =
        entry.function.arguments.filterMap (vertexInputOf m)) ∧
    (∀ arg, vertexInputOf m arg ≠ none ↔
      ∃ location, arg.binding = some (.location location)) ∧
    (∀ arg location, arg.binding = some (.location location) → arg.name = none →
      vertexInputOf m arg = some
        { name := "input_" ++ natDecimal location, location := location,
          type_name := (get_type_name m arg.ty).getD "unknown" }) := by
  refine ⟨?_, ?_, ?_, ?_⟩
  · intro h
    simp [collectVertexInputs, h]
  · intro h
    simp [collectVertexInputs, h]
  · intro arg
    cases harg : arg.binding with
    | none => simp [vertexInputOf, harg]
    | some b =>
      cases b with
      | builtIn i => simp [vertexInputOf, harg]
      | location loc => simp [vertexInputOf, harg]
  · intro arg location hb hn
    simp [vertexInputOf, hb, hn]

theorem vertex_inputs_spec_witness :
    collectVertexInputs sampleModule vertexEntry =
      vertexEntry.function.arguments.filterMap (vertexInputOf sampleModule) :=
  (vertex_inputs_spec sampleModule vertexEntry).2.1 rfl

/-- C3: fragment outputs.  A location-bound function result yields exactly
one record, named literally "output", at that location; otherwise a struct
result yields one record per location-bound member and none for unbound
members; any other result shape, a missing result, or a non-fragment stage
yields the empty list. -/
theorem fragment_outputs_spec (m : Module) (entry : EntryPoint) :
    (entry.stage ≠ .fragment → collectFragmentOutputs m entry = some []) ∧
    (entry.stage = .fragment → entry.function.result = none →
      collectFragmentOutputs m entry = some []) ∧
    (∀ result location, entry.stage = .fragment →
      entry.function.result = some result →
      result.binding = some (.location location) →
      collectFragmentOutputs m entry = some
        [{ name := "output", location := location,
           type_name := (get_type_name m result.ty).getD "unknown" }]) ∧
    (∀ result ty members span, entry.stage = .fragment →
      entry.function.result = some result →
      (∀ location, result.binding ≠ some (.location location)) →
      m.types[result.ty]? = some ty →
      ty.inner = .struct members span →
      collectFragmentOutputs m entry =
        some (members.filterMap (fragmentMemberOutput m))) ∧
    (∀ mem, fragmentMemberOutput m mem ≠ none ↔
      ∃ location, mem.binding = some (.location location)) ∧
    (∀ result ty, entry.stage = .fragment →
      entry.function.result = some result →
      (∀ location, result.binding ≠ some (.location location)) →
      m.types[result.ty]? = some ty →
      (∀ members span, ty.inner ≠ .struct members span) →
      collectFragmentOutputs m entry = some []) := by
  refine ⟨?_, ?_, ?_, ?_, ?_, ?_⟩
  · intro h
    simp [collectFragmentOutputs, h]
  · intro hstage hres
    simp [collectFragmentOutputs, hstage, hres]
  · intro result location hstage hres hb
    simp [collectFragmentOutputs, hstage, hres, hb]
  · intro result ty members span hstage hres hnb hty hinner
    cases hb : result.binding with
    | none => simp [collectFragmentOutputs, hstage, hres, hb, hty, hinner]
    | some bb =>
      cases bb with
      | builtIn i => simp [collectFragmentOutputs, hstage, hres, hb, hty, hinner]
      | location l => exact absurd hb (hnb l)
  · intro mem
    cases hmem : mem.binding with
    | none => simp [fragmentMemberOutput, hmem]
    | some b =>
      cases b with
      | builtIn i => simp [fragmentMemberOutput, hmem]
      | location loc => simp [fragmentMemberOutput, hmem]
  · intro result ty hstage hres hnb hty hns
    cases hb : result.binding with
    | none =>
      cases hi : ty.inner <;>
        first
        | exact absurd hi (hns _ _)
        | simp [collectFragmentOutputs, hstage, hres, hb, hty, hi]
    | some bb =>
      cases bb with
      | builtIn i =>
        cases hi : ty.inner <;>
          first
          | exact absurd hi (hns _ _)
          | simp [collectFragmentOutputs, hstage, hres, hb, hty, hi]
      | location l => exact absurd hb (hnb l)

theorem fragment_outputs_spec_witness :
    collectFragmentOutputs sampleModule fragmentEntry = some
      [{ name := "output", location := 0,
         type_name := (get_type_name sampleModule
           ({ ty := 1, binding := some (.location 0) } : FunctionResult).ty).getD
             "unknown" }] :=
  (fragment_outputs_spec sampleModule fragmentEntry).2.2.1
    { ty := 1, binding := some (.location 0) } 0 rfl rfl rfl


/- ## Lemmas: the type-table walk and synthesized type names -/

theorem collectTypesFrom_mem (m : Module) :
    ∀ (tys : List Ty) (start j : Nat) (ty : Ty) (members : List StructMember)
      (span : Nat),
      tys[j]? = some ty → ty.inner = .struct members span →
      typeInfoOf m (start + j) ty members ∈ collectTypesFrom m start tys := by
  intro tys
  induction tys with
  | nil =>
    intro start j ty members span hj _
    simp at hj
  | cons t rest ih =>
    intro start j ty members span hj hinner
    cases j with
    | zero =>
      simp only [List.getElem?_cons_zero, Option.some.injEq] at hj
      subst hj
      unfold collectTypesFrom
      rw [hinner]
      have harith : start + 0 = start := by omega
      rw [harith]
      exact List.mem_cons_self _ _
    | succ j =>
      have hmem := ih (start + 1) j ty members span (by simpa using hj) hinner
      have harith : start + 1 + j = start + (j + 1) := by omega
      rw [harith] at hmem
      unfold collectTypesFrom
      cases hi : t.inner <;> try exact hmem
      exact List.mem_cons_of_mem _ hmem

theorem typeHandleName_inj (h1 h2 : Nat)
    (heq : "type_" ++ handleDebug h1 = "type_" ++ handleDebug h2) : h1 = h2 := by
  apply natDecimal_injective
  apply String.ext
  have hd := congrArg String.data heq
  simp only [handleDebug, String.data_append] at hd
  have hd2 := List.append_cancel_left hd
  simp only [List.append_assoc] at hd2
  have hd3 := List.append_cancel_left hd2
  exact List.append_cancel_right hd3

/-- C5: every anonymous struct in the type table yields a TypeInfo whose
display name is the synthesized type_<handle> (with the handle rendered by
its Debug form), and two distinct anonymous structs in the same module
receive distinct synthesized names. -/
theorem anonymous_struct_names (m : Module) (h1 h2 : Nat) (ty1 ty2 : Ty)
    (ms1 : List StructMember) (sp1 : Nat) (ms2 : List StructMember) (sp2 : Nat)
    (e1 : m.types[h1]? = some ty1) (n1 : ty1.name = none)
    (i1 : ty1.inner = .struct ms1 sp1)
    (e2 : m.types[h2]? = some ty2) (n2 : ty2.name = none)
    (i2 : ty2.inner = .struct ms2 sp2)
    (hne : h1 ≠ h2) :
    typeInfoOf m h1 ty1 ms1 ∈ collectTypes m ∧
    typeInfoOf m h2 ty2 ms2 ∈ collectTypes m ∧
    (typeInfoOf m h1 ty1 ms1).name = "type_" ++ handleDebug h1 ∧
    (typeInfoOf m h2 ty2 ms2).name = "type_" ++ handleDebug h2 ∧
    (typeInfoOf m h1 ty1 ms1).name ≠ (typeInfoOf m h2 ty2 ms2).name := by
  have hname1 : (typeInfoOf m h1 ty1 ms1).name = "type_" ++ handleDebug h1 := by
    simp [typeInfoOf, n1]
  have hname2 : (typeInfoOf m h2 ty2 ms2).name = "type_" ++ handleDebug h2 := by
    simp [typeInfoOf, n2]
  refine ⟨?_, ?_, hname1, hname2, ?_⟩
  · have := collectTypesFrom_mem m m.types 0 h1 ty1 ms1 sp1 e1 i1
    simpa [collectTypes] using this
  · have := collectTypesFrom_mem m m.types 0 h2 ty2 ms2 sp2 e2 i2
    simpa [collectTypes] using this
  · rw [hname1, hname2]
    intro hcontra
    exact hne (typeHandleName_inj h1 h2 hcontra)

theorem anonymous_struct_names_witness :
    typeInfoOf sampleModule 0 anonEmptyStruct [] ∈ collectTypes sampleModule ∧
    typeInfoOf sampleModule 2 anonOutStruct
        [{ name := none, ty := 1, binding := some (.location 0), offset := 0 },
         { name := some "fog", ty := 1, binding := none, offset := 16 }]
      ∈ collectTypes sampleModule ∧
    (typeInfoOf sampleModule 0 anonEmptyStruct []).name =
      "type_" ++ handleDebug 0 ∧
    (typeInfoOf sampleModule 2 anonOutStruct
        [{ name := none, ty := 1, binding := some (.location 0), offset := 0 },
         { name := some "fog", ty := 1, binding := none, offset := 16 }]).name =
      "type_" ++ handleDebug 2 ∧
    (typeInfoOf sampleModule 0 anonEmptyStruct []).name ≠
      (typeInfoOf sampleModule 2 anonOutStruct
        [{ name := none, ty := 1, binding := some (.location 0), offset := 0 },
         { name := some "fog", ty := 1, binding := none, offset := 16 }]).name :=
  anonymous_struct_names sampleModule 0 2 anonEmptyStruct anonOutStruct [] 16
    [{ name := none, ty := 1, binding := some (.location 0), offset := 0 },
     { name := some "fog", ty := 1, binding := none, offset := 16 }] 32
    (by decide) rfl rfl (by decide) rfl rfl (by decide)


end Metis
